import Mathlib

set_option maxRecDepth 8000

namespace MCPOpenProject

/-- A JSON value, as produced by `json.loads` in the Python source.
Objects keep their entries in insertion order; lookup takes the first match. -/
inductive Json where
  | null
  | bool (b : Bool)
  | num (n : Int)
  | str (s : String)
  | arr (elems : List Json)
  | obj (entries : List (String × Json))
deriving BEq, Repr, Inhabited

/-- `d.get(key)` on a Python dict, returning `none` when the key is absent
(the Python default `None`). Only `obj` values have keys. -/
def Json.get? : Json → String → Option Json
  | .obj entries, k => (entries.find? (fun e => e.1 == k)).map (·.2)
  | _, _ => none

/-- Whether a JSON value is a Python `dict` (`isinstance(x, dict)`). -/
def Json.isObj : Json → Bool
  | .obj _ => true
  | _ => false

/-- Python `==` between a JSON value (possibly absent, i.e. `None`) and a
string literal: true exactly when the value is that string. -/
def isStrEq (v : Option Json) (s : String) : Bool :=
  match v with
  | some (.str t) => t == s
  | _ => false

/-- Python truthiness (`bool(x)`) on a JSON value: `None`, `False`, `0`, `""`,
`[]` and `{}` are falsy, everything else is truthy. -/
def pyTruthy : Json → Bool
  | .null => false
  | .bool b => b
  | .num n => n != 0
  | .str s => s != ""
  | .arr xs => !xs.isEmpty
  | .obj es => !es.isEmpty

example : pyTruthy (.num (-1)) = true := by decide
example : pyTruthy (.num 0) = false := by decide
example : (Json.obj [("a", .num 1)]).get? "a" = some (.num 1) := rfl

/-! ## Domain model (`openproject_client.py`)

`WorkPackageInfo`, `ProjectInfo` and `WeeklyReportData` are the pydantic
models of `src/mcp_server/src/openproject_client.py`.  In `ProjectInfo` the
fields `id`, `name` and `identifier` are required; in `WorkPackageInfo` only
`subject` is required; `WeeklyReportData.week` is required. -/

structure WorkPackageInfo where
  id : Option Int
  subject : String
  description : Option Json
  status : Option String
  priority : Option String
  assignee : Option String
  due_date : Option String
  created_at : Option String
  updated_at : Option String
deriving Repr, BEq

structure ProjectInfo where
  id : Int
  name : String
  identifier : String
  description : Option Json
  created_at : Option String
  updated_at : Option String
deriving Repr, BEq

structure WeeklyReportData where
  project : ProjectInfo
  work_packages : List WorkPackageInfo
  week : String
  summary : Option String
deriving Repr, BEq

/-- The exception classes of `openproject_client.py`.  `connectionError` is
`OpenProjectConnectionError`, `authenticationError` is
`OpenProjectAuthenticationError`, `rateLimitError` is
`OpenProjectRateLimitError`; all three subclass the base
`clientError` = `OpenProjectClientError`, but an *instance* carries exactly
one class, which is what `backoff`'s isinstance test sees. -/
inductive ClientExc where
  | connectionError (msg : String)
  | authenticationError (msg : String)
  | rateLimitError (msg : String)
  | clientError (msg : String)
deriving Repr, BEq

/-! ## Response extraction (`_extract_project_data`, `_extract_work_packages_data`)

The Python code probes the raw API result dynamically:
`hasattr(x, '__dict__')` (an SDK model object, read with `getattr` and
per-field defaults), `isinstance(x, dict)` (fed to the pydantic constructor,
which raises a `ValidationError` when a required field is missing), or
anything else.  A raw record is modelled by its optional typed fields;
`none` means the attribute/key is absent. -/

structure RawProject where
  id : Option Int
  name : Option String
  identifier : Option String
  description : Option Json
  created_at : Option String
  updated_at : Option String
deriving Repr

/-- A raw work-package element.  `status`, `priority` and `assignee` model
the doubly-nested `getattr(getattr(wp, 'status', None), 'name', None)`
lookup: the display name when the nested object and its `name` are present,
`none` otherwise. -/
structure RawWorkPackage where
  id : Option Int
  subject : Option String
  description : Option Json
  status : Option String
  priority : Option String
  assignee : Option String
  due_date : Option String
  created_at : Option String
  updated_at : Option String
deriving Repr

/-- Shape of one raw element as the duck-typing in the source distinguishes
it: `attrObj` has a `__dict__`, `dictObj` is a `dict`, `other` is neither
(e.g. an int or a plain string). -/
inductive RawShape (α : Type) where
  | attrObj (r : α)
  | dictObj (r : α)
  | other
deriving Repr

/-- Errors that the extraction step itself can raise before any wrapping:
a pydantic `ValidationError` from a model constructor, or an
`AttributeError` from calling `.get` on a non-dict. -/
inductive ExtractErr where
  | validationError
  | attributeError
deriving Repr, BEq

/-- `OpenProjectClient._extract_project_data` (openproject_client.py:426-448).

* attribute path: every field is read with `getattr` and a default —
  `id` defaults to `0`, `name` to `"Unknown Project"`, `identifier` to `""`,
  `description` to `{}`, the timestamps to `""`;
* dict path: `ProjectInfo(**project_result)` — pydantic raises a
  `ValidationError` when `id`, `name` or `identifier` is missing;
* any other shape falls into the `else` branch, which calls
  `project_result.get(...)` and raises `AttributeError`. -/
def extract_project_data : RawShape RawProject → Except ExtractErr ProjectInfo
  | .attrObj r =>
      .ok { id := r.id.getD 0
            name := r.name.getD "Unknown Project"
            identifier := r.identifier.getD ""
            description := some (r.description.getD (.obj []))
            created_at := some (r.created_at.getD "")
            updated_at := some (r.updated_at.getD "") }
  | .dictObj r =>
      match r.id, r.name, r.identifier with
      | some i, some n, some ident =>
          .ok { id := i, name := n, identifier := ident
                description := r.description
                created_at := r.created_at
                updated_at := r.updated_at }
      | _, _, _ => .error .validationError
  | .other => .error .attributeError

/-- Mapping of one element of the work-package collection
(openproject_client.py:466-480): on the attribute path `subject` defaults to
`""` and `description` to `{}`; on the dict path `WorkPackageInfo(**wp)`
raises a `ValidationError` when `subject` is missing; elements of any other
shape are silently skipped (no `else` branch in the loop). -/
def extract_work_package_elem : RawShape RawWorkPackage →
    Except ExtractErr (Option WorkPackageInfo)
  | .attrObj w =>
      .ok (some { id := w.id
                  subject := w.subject.getD ""
                  description := some (w.description.getD (.obj []))
                  status := w.status
                  priority := w.priority
                  assignee := w.assignee
                  due_date := w.due_date
                  created_at := w.created_at
                  updated_at := w.updated_at })
  | .dictObj w =>
      match w.subject with
      | some s =>
          .ok (some { id := w.id, subject := s
                      description := w.description
                      status := w.status, priority := w.priority
                      assignee := w.assignee, due_date := w.due_date
                      created_at := w.created_at, updated_at := w.updated_at })
      | none => .error .validationError
  | .other => .ok none

/-- The container shapes `_extract_work_packages_data` probes for, in source
order (openproject_client.py:455-462): `x._embedded.elements`, `x.elements`,
a dict with `['_embedded']['elements']`, a plain list, and anything else
(which yields the empty list). -/
inductive WPContainer where
  | embeddedAttr (xs : List (RawShape RawWorkPackage))
  | elementsAttr (xs : List (RawShape RawWorkPackage))
  | embeddedDict (xs : List (RawShape RawWorkPackage))
  | rawList (xs : List (RawShape RawWorkPackage))
  | other
deriving Repr

def WPContainer.elems : WPContainer → List (RawShape RawWorkPackage)
  | .embeddedAttr xs => xs
  | .elementsAttr xs => xs
  | .embeddedDict xs => xs
  | .rawList xs => xs
  | .other => []

/-- `OpenProjectClient._extract_work_packages_data`
(openproject_client.py:450-482): selects the element list from the container
shape, then maps each element; a pydantic `ValidationError` raised for any
dict element aborts the whole extraction. -/
def extract_work_packages_data (c : WPContainer) :
    Except ExtractErr (List WorkPackageInfo) :=
  go c.elems
where
  go : List (RawShape RawWorkPackage) → Except ExtractErr (List WorkPackageInfo)
    | [] => .ok []
    | e :: rest =>
        match extract_work_package_elem e with
        | .error err => .error err
        | .ok none => go rest
        | .ok (some wp) => do
            let tail ← go rest
            .ok (wp :: tail)

/-! ## Client operations with retry (`get_project`, `get_work_packages`)

Each decorated operation is `@backoff.on_exception(backoff.expo,
(httpx.RequestError, OpenProjectConnectionError, ApiException), max_tries=3,
base=1, max_value=30)` wrapping a `try/except` body.  One *attempt* of the
body is driven by a raw outcome of the underlying SDK call. -/

/-- Raw outcome of one underlying API call attempt: a payload, an
`ApiException` with its HTTP status, an `httpx.RequestError`, or an
`OpenProjectConnectionError`. -/
inductive RawAttempt (α : Type) where
  | success (r : α)
  | apiExc (status : Int) (msg : String)
  | requestError (msg : String)
  | connError (msg : String)
deriving Repr

/-- One attempt of the body of `OpenProjectClient.get_project`
(openproject_client.py:291-319).  The `try` block encloses the whole body, so:

* an `ApiException` is caught by the first `except` clause and re-raised as
  `OpenProjectAuthenticationError` (401) or `OpenProjectClientError`
  (404 and every other status);
* *every* other exception — including the retryable `httpx.RequestError`
  and `OpenProjectConnectionError`, and any extraction failure — is caught
  by `except Exception` and re-raised as the base `OpenProjectClientError`. -/
def get_project_body (pid : Int) (a : RawAttempt (RawShape RawProject)) :
    Except ClientExc ProjectInfo :=
  match a with
  | .success r =>
      match extract_project_data r with
      | .ok p => .ok p
      | .error _ => .error (.clientError ("Failed to get project " ++ toString pid))
  | .apiExc status msg =>
      if status == 401 then .error (.authenticationError "Authentication failed")
      else if status == 404 then
        .error (.clientError ("Project " ++ toString pid ++ " not found"))
      else .error (.clientError ("API error: " ++ msg))
  | .requestError _ => .error (.clientError ("Failed to get project " ++ toString pid))
  | .connError _ => .error (.clientError ("Failed to get project " ++ toString pid))

/-- One attempt of the body of `OpenProjectClient.get_work_packages`
(openproject_client.py:342-378); same exception mapping as
`get_project_body`. -/
def get_work_packages_body (pid : Int) (a : RawAttempt WPContainer) :
    Except ClientExc (List WorkPackageInfo) :=
  match a with
  | .success c =>
      match extract_work_packages_data c with
      | .ok wps => .ok wps
      | .error _ =>
          .error (.clientError ("Failed to get work packages for project " ++ toString pid))
  | .apiExc status msg =>
      if status == 401 then .error (.authenticationError "Authentication failed")
      else if status == 404 then
        .error (.clientError ("Project " ++ toString pid ++ " not found"))
      else .error (.clientError ("API error: " ++ msg))
  | .requestError _ =>
      .error (.clientError ("Failed to get work packages for project " ++ toString pid))
  | .connError _ =>
      .error (.clientError ("Failed to get work packages for project " ++ toString pid))

/-- Which exceptions *escaping the wrapped function* the `backoff` decorator
retries: `isinstance(e, (httpx.RequestError, OpenProjectConnectionError,
ApiException))`.  Among the client exception classes the body can raise,
only `OpenProjectConnectionError` is in that tuple —
`OpenProjectAuthenticationError`, `OpenProjectRateLimitError` and the base
`OpenProjectClientError` are not (subclassing goes the other way round). -/
def backoffRetryable : ClientExc → Bool
  | .connectionError _ => true
  | .authenticationError _ => false
  | .rateLimitError _ => false
  | .clientError _ => false

/-- `backoff.on_exception(..., max_tries=n)`: call the wrapped body; on a
retryable exception, retry while tries remain (at most `n` calls in total);
return the result together with the number of attempts actually made.
`k` indexes the attempt so each retry sees the next raw outcome. -/
def backoffRun (body : Nat → Except ClientExc α) (k : Nat) :
    Nat → Except ClientExc α × Nat
  | 0 => (.error (.clientError "backoff: no tries"), 0)
  | fuel + 1 =>
      match body k with
      | .ok a => (.ok a, 1)
      | .error e =>
          if backoffRetryable e && decide (0 < fuel) then
            let r := backoffRun body (k + 1) fuel
            (r.1, r.2 + 1)
          else (.error e, 1)

/-- The decorated `OpenProjectClient.get_project` over a stream of raw
outcomes (one per attempt), with `max_tries = 3`. -/
def get_project_run (pid : Int) (attempts : Nat → RawAttempt (RawShape RawProject)) :
    Except ClientExc ProjectInfo × Nat :=
  backoffRun (fun k => get_project_body pid (attempts k)) 0 3

/-- The decorated `OpenProjectClient.get_work_packages` over a stream of raw
outcomes, with `max_tries = 3`. -/
def get_work_packages_run (pid : Int) (attempts : Nat → RawAttempt WPContainer) :
    Except ClientExc (List WorkPackageInfo) × Nat :=
  backoffRun (fun k => get_work_packages_body pid (attempts k)) 0 3

/-! ## `get_weekly_report` (openproject_client.py:380-424) -/

/-- `week or "current"`: Python `or` takes the right operand when the left
is falsy (`None` or the empty string). -/
def pyOrCurrent : Option String → String
  | some s => if s == "" then "current" else s
  | none => "current"

/-- `OpenProjectClient.get_weekly_report`: the two sub-fetches run
concurrently under `asyncio.gather(..., return_exceptions=True)`, so both
results exist independently; then the code re-raises the project's
exception first, then the work-packages' exception, and only when both
succeeded builds the report with `week or "current"` and a summary derived
from the work-package count. -/
def get_weekly_report (projRes : Except ClientExc ProjectInfo)
    (wpRes : Except ClientExc (List WorkPackageInfo)) (week : Option String) :
    Except ClientExc WeeklyReportData :=
  match projRes, wpRes with
  | .error e, _ => .error e
  | .ok _, .error e => .error e
  | .ok p, .ok wps =>
      .ok { project := p
            work_packages := wps
            week := pyOrCurrent week
            summary := some ("Found " ++ toString wps.length ++ " work packages") }

/-- The full `get_weekly_report` pipeline: both sub-operations (each with
its own retry wrapper) run on their own raw-outcome streams. -/
def get_weekly_report_run (pid : Int)
    (projAttempts : Nat → RawAttempt (RawShape RawProject))
    (wpAttempts : Nat → RawAttempt WPContainer) (week : Option String) :
    Except ClientExc WeeklyReportData :=
  get_weekly_report (get_project_run pid projAttempts).1
    (get_work_packages_run pid wpAttempts).1 week

/-! ## MCP core (`mcp_core.py`)

Tool handlers receive the raw JSON arguments; the backend client is
abstracted as a function table, and every handler is instrumented with the
list of backend-client operations it actually invoked. -/

/-- `str(x)` on the JSON scalars that reach error messages. -/
def pyStr : Json → String
  | .null => "None"
  | .bool b => if b then "True" else "False"
  | .num n => toString n
  | .str s => s
  | .arr _ => "[...]"
  | .obj _ => "\x7b...\x7d"

/-- The message carried by a client exception (`str(e)`). -/
def ClientExc.message : ClientExc → String
  | .connectionError m => m
  | .authenticationError m => m
  | .rateLimitError m => m
  | .clientError m => m

/-- Behaviour of the `OpenProjectClient` instance as the handlers see it:
for each raw argument value, the outcome of the awaited call.  Arguments are
passed through verbatim from the JSON params (the handlers perform no type
coercion). -/
structure ClientModel where
  getProject : Json → Except ClientExc ProjectInfo
  getWorkPackages : Json → Json → Except ClientExc (List WorkPackageInfo)
  getWeeklyReport : Json → Json → Except ClientExc WeeklyReportData

/-- One invocation of a backend-client operation, with the argument values
the handler passed. -/
inductive BackendCall where
  | getProject (pid : Json)
  | getWorkPackages (pid : Json) (filters : Json)
  | getWeeklyReport (pid : Json) (week : Json)
deriving Repr, BEq

def optStrJson : Option String → Json
  | some s => .str s
  | none => .null

def optNumJson : Option Int → Json
  | some n => .num n
  | none => .null

def optJson : Option Json → Json
  | some j => j
  | none => .null

/-- The text content of the `CallToolResult` that `MCPCore._call_tool`
returns, classified by which `except` clause (if any) produced it.  The
source serialises each variant as `json.dumps` of one object:
`success` carries that object; `invalidArguments` stands for
`error: Invalid arguments: msg` (from `except ValueError/KeyError`);
`apiError` for `error: OpenProject API error: msg` (from
`except OpenProjectClientError/AuthenticationError/SecurityError`);
`unexpectedError` for `error: Unexpected error: msg`. -/
inductive CoreResult where
  | success (payload : Json)
  | invalidArguments (msg : String)
  | apiError (msg : String)
  | unexpectedError (msg : String)
deriving Repr, BEq

/-- Payload of `_handle_get_project` (mcp_core.py:183-195). -/
def projectPayload (p : ProjectInfo) : Json :=
  .obj [("id", .num p.id), ("name", .str p.name), ("identifier", .str p.identifier),
        ("description", optJson p.description),
        ("created_at", optStrJson p.created_at), ("updated_at", optStrJson p.updated_at)]

/-- One work-package entry of `_handle_get_work_packages` (mcp_core.py:214-223). -/
def wpPayloadFull (wp : WorkPackageInfo) : Json :=
  .obj [("id", optNumJson wp.id), ("subject", .str wp.subject),
        ("status", optStrJson wp.status), ("priority", optStrJson wp.priority),
        ("assignee", optStrJson wp.assignee), ("due_date", optStrJson wp.due_date),
        ("created_at", optStrJson wp.created_at), ("updated_at", optStrJson wp.updated_at)]

/-- One work-package entry of `_handle_get_weekly_report` (mcp_core.py:253-260). -/
def wpPayloadWeekly (wp : WorkPackageInfo) : Json :=
  .obj [("id", optNumJson wp.id), ("subject", .str wp.subject),
        ("status", optStrJson wp.status), ("priority", optStrJson wp.priority),
        ("assignee", optStrJson wp.assignee), ("due_date", optStrJson wp.due_date)]

/-- Payload of `_handle_get_work_packages` (mcp_core.py:208-228). -/
def wpListPayload (pid : Json) (wps : List WorkPackageInfo) : Json :=
  .obj [("project_id", pid),
        ("work_packages", .arr (wps.map wpPayloadFull)),
        ("total_count", .num wps.length)]

/-- Payload of `_handle_get_weekly_report` (mcp_core.py:242-267). -/
def weeklyPayload (r : WeeklyReportData) : Json :=
  .obj [("project", .obj [("id", .num r.project.id),
                          ("name", .str r.project.name),
                          ("identifier", .str r.project.identifier)]),
        ("week", .str r.week),
        ("work_packages", .arr (r.work_packages.map wpPayloadWeekly)),
        ("summary", optStrJson r.summary),
        ("total_packages", .num r.work_packages.length)]

/-- `MCPCore._handle_get_project` (mcp_core.py:174-195) composed with the
exception handling of `_call_tool` (mcp_core.py:142-167).  The guard is
`if not project_id: raise ValueError(...)` — Python truthiness, so only a
*falsy* argument (absent, `None`, `0`, …) is rejected; any other value,
negative integers included, is passed to `client.get_project`. -/
def handle_get_project (args : Json) (client : ClientModel) :
    CoreResult × List BackendCall :=
  let pid := optJson (args.get? "project_id")
  if !pyTruthy pid then (.invalidArguments "project_id is required", [])
  else
    match client.getProject pid with
    | .ok p => (.success (projectPayload p), [.getProject pid])
    | .error e => (.apiError e.message, [.getProject pid])

/-- `MCPCore._handle_get_work_packages` (mcp_core.py:197-229) composed with
the exception handling of `_call_tool`.  Same truthiness guard; `filters`
is forwarded verbatim (`None` when absent). -/
def handle_get_work_packages (args : Json) (client : ClientModel) :
    CoreResult × List BackendCall :=
  let pid := optJson (args.get? "project_id")
  let filters := optJson (args.get? "filters")
  if !pyTruthy pid then (.invalidArguments "project_id is required", [])
  else
    match client.getWorkPackages pid filters with
    | .ok wps => (.success (wpListPayload pid wps), [.getWorkPackages pid filters])
    | .error e => (.apiError e.message, [.getWorkPackages pid filters])

/-- `MCPCore._handle_get_weekly_report` (mcp_core.py:231-267) composed with
the exception handling of `_call_tool`.  Same truthiness guard; `week` is
forwarded verbatim (`None` when absent). -/
def handle_get_weekly_report (args : Json) (client : ClientModel) :
    CoreResult × List BackendCall :=
  let pid := optJson (args.get? "project_id")
  let week := optJson (args.get? "week")
  if !pyTruthy pid then (.invalidArguments "project_id is required", [])
  else
    match client.getWeeklyReport pid week with
    | .ok r => (.success (weeklyPayload r), [.getWeeklyReport pid week])
    | .error e => (.apiError e.message, [.getWeeklyReport pid week])

/-- `MCPCore._call_tool` (mcp_core.py:122-167): dispatch on the tool name;
an unknown name raises `ValueError`, caught as an invalid-arguments
result. -/
def call_tool (name : String) (args : Json) (client : ClientModel) :
    CoreResult × List BackendCall :=
  if name == "get_project" then handle_get_project args client
  else if name == "get_work_packages" then handle_get_work_packages args client
  else if name == "get_weekly_report" then handle_get_weekly_report args client
  else (.invalidArguments ("Unknown tool: " ++ name), [])

/-! ## Tool listing (`MCPCore._list_tools`, mcp_core.py:61-120) -/

structure Tool where
  name : String
  description : String
  inputSchema : Json
deriving Repr, BEq

/-- The mutable state an `MCPCore` instance carries across calls: the
lazily-created client and its configuration. -/
structure MCPCoreState where
  client : Option ClientModel
  configValid : Bool

def projectIdProp (desc : String) : String × Json :=
  ("project_id", .obj [("type", .str "integer"), ("description", .str desc)])

/-- `MCPCore._list_tools`: builds the same literal three-element list on
every call; nothing in the body reads `self` or any other state. -/
def list_tools (_s : MCPCoreState) : List Tool :=
  [ { name := "get_project"
      description := "Get project information by ID"
      inputSchema := .obj [("type", .str "object"),
        ("properties", .obj [projectIdProp "Project ID to retrieve"]),
        ("required", .arr [.str "project_id"])] },
    { name := "get_work_packages"
      description := "Get work packages for a project"
      inputSchema := .obj [("type", .str "object"),
        ("properties", .obj [projectIdProp "Project ID to get work packages for",
          ("filters", .obj [("type", .str "array"),
            ("description", .str "Optional filters to apply"),
            ("items", .obj [("type", .str "object")])])]),
        ("required", .arr [.str "project_id"])] },
    { name := "get_weekly_report"
      description := "Get weekly report data for a project"
      inputSchema := .obj [("type", .str "object"),
        ("properties", .obj [projectIdProp "Project ID to generate weekly report for",
          ("week", .obj [("type", .str "string"),
            ("description", .str "Week identifier (e.g., \x272024-W42\x27)")])]),
        ("required", .arr [.str "project_id"])] } ]

/-! ## FastAPI-server tool handlers (`fastapi_mcp_server.py:368-410`)

These raise `ValidationError` (a `SecurityError` subclass) on a falsy
`project_id` and otherwise await the client; on the stdio transport any
exception they raise is caught by the loop's blanket `except Exception`. -/

/-- An exception escaping a FastAPI-server tool handler. -/
inductive StdioExc where
  | validationError (msg : String)
  | clientExc (e : ClientExc)
deriving Repr, BEq

def StdioExc.message : StdioExc → String
  | .validationError m => m
  | .clientExc e => e.message

/-- `ProjectInfo.dict()`. -/
def projectDict (p : ProjectInfo) : Json :=
  .obj [("id", .num p.id), ("name", .str p.name), ("identifier", .str p.identifier),
        ("description", optJson p.description),
        ("created_at", optStrJson p.created_at), ("updated_at", optStrJson p.updated_at)]

/-- `WorkPackageInfo.dict()`. -/
def wpDict (wp : WorkPackageInfo) : Json :=
  .obj [("id", optNumJson wp.id), ("subject", .str wp.subject),
        ("description", optJson wp.description),
        ("status", optStrJson wp.status), ("priority", optStrJson wp.priority),
        ("assignee", optStrJson wp.assignee), ("due_date", optStrJson wp.due_date),
        ("created_at", optStrJson wp.created_at), ("updated_at", optStrJson wp.updated_at)]

/-- The `MCPResponse(data=...).dict(exclude_none=True)` value returned by
`handle_fetch_weekly_report` on success (fastapi_mcp_server.py:379-388). -/
def fetchReportPayload (r : WeeklyReportData) : Json :=
  .obj [("data", .obj
    [("project", projectDict r.project),
     ("work_packages", .arr (r.work_packages.map wpDict)),
     ("week", .str r.week),
     ("summary", optStrJson r.summary),
     ("total_packages", .num r.work_packages.length)])]

/-- The `MCPResponse(data=...).dict(exclude_none=True)` value returned by
`handle_get_project_data` on success (fastapi_mcp_server.py:404-410). -/
def projectDataPayload (p : ProjectInfo) (wps : List WorkPackageInfo) : Json :=
  .obj [("data", .obj
    [("project", projectDict p),
     ("work_packages", .arr (wps.map wpDict)),
     ("total_packages", .num wps.length)])]

/-- `handle_fetch_weekly_report` (fastapi_mcp_server.py:368-388): truthiness
guard on `project_id`, then one `client.get_weekly_report(project_id, week)`
call; the returned value models `MCPResponse(data=...).dict(exclude_none=True)`. -/
def handle_fetch_weekly_report (params : Json) (client : ClientModel) :
    Except StdioExc Json × List BackendCall :=
  let pid := optJson (params.get? "project_id")
  let week := optJson (params.get? "week")
  if !pyTruthy pid then (.error (.validationError "project_id is required"), [])
  else
    match client.getWeeklyReport pid week with
    | .ok r => (.ok (fetchReportPayload r), [.getWeeklyReport pid week])
    | .error e => (.error (.clientExc e), [.getWeeklyReport pid week])

/-- `handle_get_project_data` (fastapi_mcp_server.py:391-410): truthiness
guard, then `client.get_project` followed — only if it succeeded — by
`client.get_work_packages` with no filters. -/
def handle_get_project_data (params : Json) (client : ClientModel) :
    Except StdioExc Json × List BackendCall :=
  let pid := optJson (params.get? "project_id")
  if !pyTruthy pid then (.error (.validationError "project_id is required"), [])
  else
    match client.getProject pid with
    | .error e => (.error (.clientExc e), [.getProject pid])
    | .ok p =>
        match client.getWorkPackages pid .null with
        | .error e => (.error (.clientExc e), [.getProject pid, .getWorkPackages pid .null])
        | .ok wps =>
            (.ok (projectDataPayload p wps), [.getProject pid, .getWorkPackages pid .null])

/-! ## The stdio read loop (`handle_stdio_mode`, fastapi_mcp_server.py:543-754)

One non-empty input line is either unparseable JSON or a parsed value.
Each processed line appends the responses it prints to stdout; the loop
variable `request_id` persists across iterations in the Python function
scope, so the `except Exception` handler can pick up the id of a *previous*
envelope — the model threads it as `lastId`. -/

inductive LineInput where
  | parseFail (msg : String)
  | parsed (j : Json)
deriving Repr

inductive RpcPayload where
  | result (j : Json)
  | rpcError (code : Int) (msg : String)
deriving Repr, BEq

/-- One JSON-RPC response line printed to stdout: its `id` field and its
`result`/`error` member. -/
structure RpcOut where
  id : Json
  payload : RpcPayload
deriving Repr, BEq

/-- The `initialize` result (fastapi_mcp_server.py:590-611). -/
def initializeResult : Json :=
  .obj [("protocolVersion", .str "2024-11-05"),
        ("capabilities", .obj
          [("tools", .obj [("listChanged", .bool true)]),
           ("resources", .obj [("subscribe", .bool false), ("listChanged", .bool false)])]),
        ("serverInfo", .obj [("name", .str "mcp-openproject-server"),
                             ("version", .str "1.0.0")])]

/-- The `tools/list` result of the stdio loop (fastapi_mcp_server.py:613-657):
two tools, `fetch_weekly_report` and `get_project_data`. -/
def stdioToolsListResult : Json :=
  .obj [("tools", .arr
    [.obj [("name", .str "fetch_weekly_report"),
           ("description", .str "Fetch weekly report data for a specific project from OpenProject"),
           ("inputSchema", .obj [("type", .str "object"),
             ("properties", .obj
               [("project_id", .obj [("type", .str "integer"),
                  ("description", .str "The ID of the project to fetch data for"),
                  ("minimum", .num 1)]),
                ("week", .obj [("type", .str "string"),
                  ("description", .str "Optional week identifier (e.g., \x272025-W41\x27)"),
                  ("pattern", .str "^202[0-9]-W([1-9]|[1-4][0-9]|5[0-3])$")])]),
             ("required", .arr [.str "project_id"])])],
     .obj [("name", .str "get_project_data"),
           ("description", .str "Get project data as a resource"),
           ("inputSchema", .obj [("type", .str "object"),
             ("properties", .obj
               [("project_id", .obj [("type", .str "integer"),
                  ("description", .str "The ID of the project"),
                  ("minimum", .num 1)])]),
             ("required", .arr [.str "project_id"])])]])]

/-- The `resources/list` result (fastapi_mcp_server.py:683-698). -/
def resourcesListResult : Json :=
  .obj [("resources", .arr
    [.obj [("uri", .str "openproject://projects/\x7bproject_id\x7d"),
           ("name", .str "Project Data"),
           ("description", .str "OpenProject data for a specific project"),
           ("mimeType", .str "application/json")]])]

/-- The `tools/call` branch (fastapi_mcp_server.py:659-681): a known tool
runs its handler — an exception from the handler escapes to the loop's
`except Exception`, which prints a `-32603` response carrying the current
`request_id`; an unknown tool is answered with a *result* whose payload is
an error object. -/
def dispatchToolsCall (params : Json) (rid : Json) (client : ClientModel) : RpcOut :=
  let toolName := params.get? "name"
  let toolArgs := (params.get? "arguments").getD (.obj [])
  if isStrEq toolName "fetch_weekly_report" then
    match (handle_fetch_weekly_report toolArgs client).1 with
    | .ok r => ⟨rid, .result r⟩
    | .error e => ⟨rid, .rpcError (-32603) ("Internal error: " ++ e.message)⟩
  else if isStrEq toolName "get_project_data" then
    match (handle_get_project_data toolArgs client).1 with
    | .ok r => ⟨rid, .result r⟩
    | .error e => ⟨rid, .rpcError (-32603) ("Internal error: " ++ e.message)⟩
  else
    ⟨rid, .result (.obj [("error", .str ("Unknown tool: " ++ pyStr (optJson toolName)))])⟩

/-- Whether a method string is handled by the notification/ack branch
(fastapi_mcp_server.py:700-706). -/
def isNotificationMethod (m : String) : Bool :=
  m == "initialized" || m == "notifications/tools/list_changed" ||
    m == "notifications/resources/list_changed"

/-- Processing of one non-empty input line by `handle_stdio_mode`
(fastapi_mcp_server.py:564-749).  Returns the list of responses printed for
this line and the new value of the persistent `request_id` local.

* unparseable JSON → one `-32700` response with `id = null`
  (`request_id` untouched);
* a parsed non-dict (e.g. a JSON array) enters the invalid-envelope branch,
  but building that response calls `.get` on the non-dict and raises
  `AttributeError`, so the `except Exception` handler prints a `-32603`
  response carrying the *previous* envelope's id;
* a dict without `jsonrpc == "2.0"` → one `-32600` response;
* otherwise `request_id` is set and the method dispatched; every dispatch
  branch — `initialize`, `tools/list`, `tools/call` (including handler
  exceptions), `resources/list`, the notification branch, unknown methods —
  prints exactly one response. -/
def processLine (client : ClientModel) (lastId : Json) :
    LineInput → List RpcOut × Json
  | .parseFail msg =>
      ([⟨.null, .rpcError (-32700) ("Parse error: " ++ msg)⟩], lastId)
  | .parsed j =>
      if !j.isObj then
        ([⟨lastId, .rpcError (-32603) "Internal error: AttributeError"⟩], lastId)
      else if !isStrEq (j.get? "jsonrpc") "2.0" then
        ([⟨optJson (j.get? "id"), .rpcError (-32600) "Invalid Request: Must be JSON-RPC 2.0"⟩],
         lastId)
      else
        let rid := optJson (j.get? "id")
        let params := (j.get? "params").getD (.obj [])
        let method := j.get? "method"
        let out : RpcOut :=
          if isStrEq method "initialize" then ⟨rid, .result initializeResult⟩
          else if isStrEq method "tools/list" then ⟨rid, .result stdioToolsListResult⟩
          else if isStrEq method "tools/call" then
            if !params.isObj then ⟨rid, .rpcError (-32603) "Internal error: AttributeError"⟩
            else dispatchToolsCall params rid client
          else if isStrEq method "resources/list" then ⟨rid, .result resourcesListResult⟩
          else if (match method with
                   | some (.str m) => isNotificationMethod m
                   | _ => false) then ⟨rid, .result .null⟩
          else ⟨rid, .rpcError (-32601) ("Method not found: " ++ pyStr (optJson method))⟩
        ([out], rid)

/-- The whole read loop over a sequence of non-empty lines (empty lines are
skipped before parsing and end-of-stream terminates the loop; both are
outside this list).  Returns everything printed to stdout. -/
def runStdio (client : ClientModel) : List LineInput → Json → List RpcOut
  | [], _ => []
  | ln :: rest, lastId =>
      let step := processLine client lastId ln
      step.1 ++ runStdio client rest step.2

/-! ## Connection-pool concurrency model (`HTTPClientManager`,
openproject_client.py:113-181)

`HTTPClientManager` holds `asyncio.Semaphore(MAX_CONNECTIONS)` and offers
`request_context()`, which acquires the semaphore around a request.  The
underlying shared `httpx.AsyncClient` is configured with
`limits=httpx.Limits(..., max_connections=100)` — a hard-coded 100, not the
configured ceiling.  Crucially, `get_project` / `get_work_packages` issue
their backend requests through the SDK `ApiClient` and never enter
`request_context()`, so they never touch the semaphore.

An operation is a script of atomic steps; a schedule picks which operation
advances next.  A step is enabled per the blocking rules of the primitives
(semaphore acquire blocks at the ceiling; a new request blocks at the httpx
connection cap). -/

inductive PStep where
  | acquire
  | release
  | reqStart
  | reqEnd
deriving Repr, DecidableEq

/-- `httpx.Limits(max_connections=100)` on the shared client
(openproject_client.py:148). -/
def httpxMaxConnections : Nat := 100

/-- Steps a `get_project` call performs around its backend request: it does
not use `request_context()`, so no semaphore acquire/release appears. -/
def getProjectScript : List PStep := [.reqStart, .reqEnd]

/-- Steps of a request issued through `HTTPClientManager.request_context()`
(openproject_client.py:163-172): semaphore acquire, request, release. -/
def requestContextScript : List PStep := [.acquire, .reqStart, .reqEnd, .release]

structure PoolState where
  rem : List (List PStep)
  held : Nat
  inflight : Nat
deriving Repr, DecidableEq

/-- Whether a step can run now: `acquire` blocks while `held` is at the
semaphore ceiling `N`; starting a request blocks at the httpx cap;
`release` and finishing a request are always enabled. -/
def stepEnabled (N : Nat) (s : PoolState) : PStep → Bool
  | .acquire => s.held < N
  | .release => true
  | .reqStart => s.inflight < httpxMaxConnections
  | .reqEnd => true

def applyStep (s : PoolState) : PStep → PoolState
  | .acquire => { s with held := s.held + 1 }
  | .release => { s with held := s.held - 1 }
  | .reqStart => { s with inflight := s.inflight + 1 }
  | .reqEnd => { s with inflight := s.inflight - 1 }

/-- Run a schedule (a list of operation indices): at each turn the chosen
operation performs its next step if that step is enabled.  Returns the
maximum number of in-flight backend requests observed, or `none` if the
schedule picks a blocked or finished operation (i.e. it is not a possible
interleaving). -/
def execSched (N : Nat) : List Nat → PoolState → Nat → Option Nat
  | [], _, best => some best
  | i :: rest, s, best =>
      match s.rem.get? i with
      | none => none
      | some [] => none
      | some (st :: tail) =>
          if stepEnabled N s st then
            let s2 := { applyStep s st with rem := s.rem.set i tail }
            execSched N rest s2 (max best s2.inflight)
          else none

/-! ## Concrete fixtures used by witnesses and counterexamples -/

def sampleProject : ProjectInfo :=
  { id := 42, name := "Demo", identifier := "demo"
    description := none, created_at := none, updated_at := none }

def sampleWP : WorkPackageInfo :=
  { id := some 7, subject := "Task A", description := none, status := some "New"
    priority := none, assignee := none, due_date := none
    created_at := none, updated_at := none }

/-- A client whose every operation succeeds with fixed data. -/
def trivialClient : ClientModel :=
  { getProject := fun _ => .ok sampleProject
    getWorkPackages := fun _ _ => .ok [sampleWP]
    getWeeklyReport := fun _ _ =>
      .ok { project := sampleProject, work_packages := [sampleWP]
            week := "current", summary := some "Found 1 work packages" } }

/-! ## Supporting lemmas -/

/-- A successful `backoffRun` result comes from some successful body attempt. -/
theorem backoffRun_ok {α : Type} (body : Nat → Except ClientExc α) :
    ∀ (fuel k : Nat) (a : α) (n : Nat),
      backoffRun body k fuel = (.ok a, n) → ∃ m, body m = .ok a := by
  intro fuel
  induction fuel with
  | zero => intro k a n h; simp [backoffRun] at h
  | succ f ih =>
      intro k a n h
      unfold backoffRun at h
      cases hb : body k with
      | ok b =>
          rw [hb] at h
          dsimp only at h
          refine ⟨k, ?_⟩
          rw [hb]
          have h1 := congrArg Prod.fst h
          simpa using h1
      | error e =>
          rw [hb] at h
          dsimp only at h
          split at h
          · have h1 := congrArg Prod.fst h
            dsimp only at h1
            exact ih (k + 1) a (backoffRun body (k + 1) f).2 (by rw [← h1])
          · simp at h

/-- Within the semaphore-guarded `request_context`, the second caller blocks
at the ceiling: with `N = 1`, a schedule in which the second operation tries
to acquire while the first still holds the permit is not a possible
interleaving (the model sanity check that the semaphore, where it is
actually used, does enforce the bound). -/
theorem requestContext_blocks_at_ceiling :
    execSched 1 [0, 1] ⟨[requestContextScript, requestContextScript], 0, 0⟩ 0 = none ∧
    execSched 1 [0, 0, 0, 0, 1, 1, 1, 1]
      ⟨[requestContextScript, requestContextScript], 0, 0⟩ 0 = some 1 := by
  constructor <;> rfl

/-! ## Claim theorems -/

/-- C9.  `MCPCore._list_tools` is a constant function of the server state:
it returns the same three descriptors — named `get_project`,
`get_work_packages`, `get_weekly_report`, in that order — on every call,
and each descriptor's schema declares `project_id` as a required integer
parameter. -/
theorem list_tools_constant_three_tools :
    (∀ s s' : MCPCoreState, list_tools s = list_tools s') ∧
    (list_tools ⟨none, true⟩).map Tool.name =
      ["get_project", "get_work_packages", "get_weekly_report"] ∧
    (list_tools ⟨none, true⟩).map (fun t => t.inputSchema.get? "required") =
      [some (.arr [.str "project_id"]), some (.arr [.str "project_id"]),
       some (.arr [.str "project_id"])] ∧
    (list_tools ⟨none, true⟩).map
        (fun t => ((optJson (t.inputSchema.get? "properties")).get? "project_id").bind
          (fun pj => pj.get? "type")) =
      [some (.str "integer"), some (.str "integer"), some (.str "integer")] :=
  ⟨fun _ _ => rfl, rfl, rfl, rfl⟩

/-- C3 (the code at the claim's failing input).  A `get_project` whose first
backend attempt raises the retryable `httpx.RequestError` makes exactly one
attempt: the body's `except Exception` clause re-raises it as the base
`OpenProjectClientError`, which is not in the backoff decorator's retry
tuple, so no retry happens — even when a second attempt would have
succeeded.  Backend 401 and 404 are likewise surfaced after exactly one
attempt (that part of the claim holds). -/
theorem get_project_never_retries_transient :
    get_project_run 1 (fun _ => .requestError "connection refused") =
      (.error (.clientError "Failed to get project 1"), 1) ∧
    get_project_run 1 (fun k =>
        if k == 0 then .requestError "connection refused"
        else .success (.dictObj ⟨some 1, some "Demo", some "demo", none, none, none⟩)) =
      (.error (.clientError "Failed to get project 1"), 1) ∧
    get_project_run 1 (fun _ => .apiExc 401 "unauthorized") =
      (.error (.authenticationError "Authentication failed"), 1) ∧
    get_project_run 1 (fun _ => .apiExc 404 "missing") =
      (.error (.clientError "Project 1 not found"), 1) ∧
    get_work_packages_run 1 (fun _ => .connError "pool error") =
      (.error (.clientError "Failed to get work packages for project 1"), 1) :=
  ⟨rfl, rfl, rfl, rfl, rfl⟩

/-- C8 (the code at the claim's failing input).  With the pool ceiling
configured to `N = 1`, two simultaneous `get_project` calls can both have
their backend requests in flight at once: `get_project` never enters
`request_context()`, so its script contains no semaphore acquire, and the
schedule in which both operations start their requests before either
finishes is a possible interleaving reaching 2 > 1 in-flight requests. -/
theorem get_project_exceeds_pool_ceiling :
    execSched 1 [0, 1] ⟨[getProjectScript, getProjectScript], 0, 0⟩ 0 = some 2 ∧
    ¬ (2 ≤ 1) :=
  ⟨rfl, by decide⟩

/-- C1 counterexample.  A `tools/call` of `get_project` with
`project_id = -1` (an integer ≤ 0) passes the `if not project_id` truthiness
guard, invokes the backend client, and returns a success result — not a
`ValidationError`; the stdio `fetch_weekly_report` handler likewise calls
the backend for `project_id = -1`. -/
theorem negative_project_id_reaches_backend :
    call_tool "get_project" (.obj [("project_id", .num (-1))]) trivialClient =
      (.success (projectPayload sampleProject), [.getProject (.num (-1))]) ∧
    (handle_fetch_weekly_report (.obj [("project_id", .num (-1))]) trivialClient).2 =
      [.getWeeklyReport (.num (-1)) .null] ∧
    [BackendCall.getProject (.num (-1))] ≠ ([] : List BackendCall) :=
  ⟨rfl, rfl, by simp⟩

/-- C1 amended.  The handlers guard `project_id` with Python truthiness
(`if not project_id`), not with a sign check: a `project_id` of `0` (or an
absent one) yields the validation-error result and no backend-client call,
while every non-zero integer — negative ones included — produces exactly
one backend-client call with that id.  This holds for the three `MCPCore`
tools and for the stdio `fetch_weekly_report` handler. -/
theorem project_id_guard_truthiness :
    ∀ (pid : Int) (client : ClientModel),
      (pid = 0 →
        call_tool "get_project" (.obj [("project_id", .num pid)]) client =
          (.invalidArguments "project_id is required", []) ∧
        call_tool "get_work_packages" (.obj [("project_id", .num pid)]) client =
          (.invalidArguments "project_id is required", []) ∧
        call_tool "get_weekly_report" (.obj [("project_id", .num pid)]) client =
          (.invalidArguments "project_id is required", []) ∧
        handle_fetch_weekly_report (.obj [("project_id", .num pid)]) client =
          (.error (.validationError "project_id is required"), [])) ∧
      (pid ≠ 0 →
        (call_tool "get_project" (.obj [("project_id", .num pid)]) client).2 =
          [.getProject (.num pid)] ∧
        (call_tool "get_work_packages" (.obj [("project_id", .num pid)]) client).2 =
          [.getWorkPackages (.num pid) .null] ∧
        (call_tool "get_weekly_report" (.obj [("project_id", .num pid)]) client).2 =
          [.getWeeklyReport (.num pid) .null] ∧
        (handle_fetch_weekly_report (.obj [("project_id", .num pid)]) client).2 =
          [.getWeeklyReport (.num pid) .null]) := by
  intro pid client
  constructor
  · rintro rfl
    exact ⟨rfl, rfl, rfl, rfl⟩
  · intro h
    have hb : (pid != 0) = true := by simpa [bne_iff_ne] using h
    have e1 : call_tool "get_project" (.obj [("project_id", .num pid)]) client =
        if !(pid != 0) then
          (CoreResult.invalidArguments "project_id is required", ([] : List BackendCall))
        else
          match client.getProject (.num pid) with
          | .ok p => (.success (projectPayload p), [.getProject (.num pid)])
          | .error e => (.apiError e.message, [.getProject (.num pid)]) := rfl
    have e2 : call_tool "get_work_packages" (.obj [("project_id", .num pid)]) client =
        if !(pid != 0) then
          (CoreResult.invalidArguments "project_id is required", ([] : List BackendCall))
        else
          match client.getWorkPackages (.num pid) .null with
          | .ok wps => (.success (wpListPayload (.num pid) wps),
                        [.getWorkPackages (.num pid) .null])
          | .error e => (.apiError e.message, [.getWorkPackages (.num pid) .null]) := rfl
    have e3 : call_tool "get_weekly_report" (.obj [("project_id", .num pid)]) client =
        if !(pid != 0) then
          (CoreResult.invalidArguments "project_id is required", ([] : List BackendCall))
        else
          match client.getWeeklyReport (.num pid) .null with
          | .ok r => (.success (weeklyPayload r), [.getWeeklyReport (.num pid) .null])
          | .error e => (.apiError e.message, [.getWeeklyReport (.num pid) .null]) := rfl
    have e4 : handle_fetch_weekly_report (.obj [("project_id", .num pid)]) client =
        if !(pid != 0) then
          (Except.error (StdioExc.validationError "project_id is required"),
           ([] : List BackendCall))
        else
          match client.getWeeklyReport (.num pid) .null with
          | .ok r => (.ok (fetchReportPayload r), [.getWeeklyReport (.num pid) .null])
          | .error e => (.error (.clientExc e), [.getWeeklyReport (.num pid) .null]) := rfl
    refine ⟨?_, ?_, ?_, ?_⟩
    · rw [e1, hb]
      cases client.getProject (.num pid) <;> rfl
    · rw [e2, hb]
      cases client.getWorkPackages (.num pid) .null <;> rfl
    · rw [e3, hb]
      cases client.getWeeklyReport (.num pid) .null <;> rfl
    · rw [e4, hb]
      cases client.getWeeklyReport (.num pid) .null <;> rfl

/-- Witness for C1 amended: `project_id = 0` is rejected with no backend
call, and `project_id = -1` produces exactly the one backend call. -/
theorem project_id_guard_truthiness_witness :
    call_tool "get_project" (.obj [("project_id", .num 0)]) trivialClient =
      (.invalidArguments "project_id is required", []) ∧
    (call_tool "get_project" (.obj [("project_id", .num (-1))]) trivialClient).2 =
      [.getProject (.num (-1))] :=
  ⟨((project_id_guard_truthiness 0 trivialClient).1 rfl).1,
   ((project_id_guard_truthiness (-1) trivialClient).2 (by decide)).1⟩

/-- C2.  `get_weekly_report` is all-or-nothing over its two concurrent
sub-fetches: a failing project fetch fails the whole operation with that
error (also when both fail — the project's error is checked first); a
failing work-package fetch after a successful project fetch fails the whole
operation with the work-package error; and any successful report contains
exactly the project and work packages the sub-fetches returned — a failed
part is never silently omitted or emptied. -/
theorem weekly_report_all_or_nothing :
    ∀ (pid : Int) (projAtt : Nat → RawAttempt (RawShape RawProject))
      (wpAtt : Nat → RawAttempt WPContainer) (week : Option String),
      (∀ e, (get_project_run pid projAtt).1 = .error e →
        get_weekly_report_run pid projAtt wpAtt week = .error e) ∧
      (∀ p e, (get_project_run pid projAtt).1 = .ok p →
        (get_work_packages_run pid wpAtt).1 = .error e →
        get_weekly_report_run pid projAtt wpAtt week = .error e) ∧
      (∀ r, get_weekly_report_run pid projAtt wpAtt week = .ok r →
        ∃ p wps, (get_project_run pid projAtt).1 = .ok p ∧
          (get_work_packages_run pid wpAtt).1 = .ok wps ∧
          r.project = p ∧ r.work_packages = wps) := by
  intro pid projAtt wpAtt week
  refine ⟨?_, ?_, ?_⟩
  · intro e he
    unfold get_weekly_report_run get_weekly_report
    rw [he]
  · intro p e hp hw
    unfold get_weekly_report_run get_weekly_report
    rw [hp, hw]
  · intro r h
    unfold get_weekly_report_run get_weekly_report at h
    cases hp : (get_project_run pid projAtt).1 with
    | error e => rw [hp] at h; exact absurd h (by simp)
    | ok p =>
        cases hw : (get_work_packages_run pid wpAtt).1 with
        | error e => rw [hp, hw] at h; exact absurd h (by simp)
        | ok wps =>
            rw [hp, hw] at h
            refine ⟨p, wps, rfl, rfl, ?_, ?_⟩ <;>
              · injection h with h'
                rw [← h']

/-- Witness for C2: a successful project fetch combined with a
work-package fetch that fails (transiently, with retries exhausted after
one attempt) makes the whole `get_weekly_report` fail with that error. -/
theorem weekly_report_all_or_nothing_witness :
    get_weekly_report_run 42
      (fun _ => .success (.dictObj ⟨some 42, some "Demo", some "demo", none, none, none⟩))
      (fun _ => .requestError "connection refused") none =
      .error (.clientError "Failed to get work packages for project 42") :=
  ((weekly_report_all_or_nothing 42
      (fun _ => .success (.dictObj ⟨some 42, some "Demo", some "demo", none, none, none⟩))
      (fun _ => .requestError "connection refused") none).2.1
    ⟨42, "Demo", "demo", none, none, none⟩
    (.clientError "Failed to get work packages for project 42") rfl rfl)

/-- C4.  An unparseable input line on the stdio transport produces exactly
one JSON-RPC error response with code `-32700` and `id = null`, and the
read loop carries on with the remaining lines unchanged (same loop state,
no termination, no exception). -/
theorem stdio_parse_error_single_response :
    ∀ (client : ClientModel) (msg : String) (rest : List LineInput) (lastId : Json),
      runStdio client (.parseFail msg :: rest) lastId =
        ⟨.null, .rpcError (-32700) ("Parse error: " ++ msg)⟩ ::
          runStdio client rest lastId := by
  intro client msg rest lastId
  rfl

/-- Shared helper: every successful `get_weekly_report` carries
`week or "current"` and the count-derived summary. -/
theorem weekly_ok_fields :
    ∀ (pid : Int) (projAtt : Nat → RawAttempt (RawShape RawProject))
      (wpAtt : Nat → RawAttempt WPContainer) (w : Option String) (r : WeeklyReportData),
      get_weekly_report_run pid projAtt wpAtt w = .ok r →
      r.week = pyOrCurrent w ∧
      r.summary = some ("Found " ++ toString r.work_packages.length ++ " work packages") := by
  intro pid projAtt wpAtt w r h
  unfold get_weekly_report_run get_weekly_report at h
  cases hp : (get_project_run pid projAtt).1 with
  | error e => rw [hp] at h; cases h
  | ok p =>
      cases hw : (get_work_packages_run pid wpAtt).1 with
      | error e => rw [hp, hw] at h; cases h
      | ok wps =>
          rw [hp, hw] at h
          injection h with h'
          subst h'
          exact ⟨rfl, rfl⟩

/-- C5 counterexample.  The stdio loop answers the `initialized`
notification — an envelope with no `id` — with a written response
(`id: null`, `result: null`): the output for that single line is non-empty,
where the claim demands that no response be written at all. -/
theorem notification_receives_response :
    runStdio trivialClient
      [.parsed (.obj [("jsonrpc", .str "2.0"), ("method", .str "initialized")])] .null =
      [⟨.null, .result .null⟩] ∧
    runStdio trivialClient
      [.parsed (.obj [("jsonrpc", .str "2.0"), ("method", .str "initialized")])] .null ≠
      [] :=
  ⟨rfl, by intro h; rw [show runStdio trivialClient
      [.parsed (.obj [("jsonrpc", .str "2.0"), ("method", .str "initialized")])] .null =
      [⟨.null, .result .null⟩] from rfl] at h; cases h⟩

/-- C5 amended.  The stdio loop writes exactly one response for *every*
processed line — envelopes with an id, notifications, and unparseable lines
alike; notification methods in particular are answered with `result: null`
and the envelope's (absent, hence null) id rather than being left
unanswered. -/
theorem stdio_one_response_per_envelope :
    (∀ (client : ClientModel) (lastId : Json) (ln : LineInput),
      ((processLine client lastId ln).1).length = 1) ∧
    (∀ (client : ClientModel) (lastId : Json) (entries : List (String × Json)) (m : String),
      (Json.obj entries).get? "jsonrpc" = some (.str "2.0") →
      (Json.obj entries).get? "method" = some (.str m) →
      isNotificationMethod m = true →
      processLine client lastId (.parsed (.obj entries)) =
        ([⟨optJson ((Json.obj entries).get? "id"), .result .null⟩],
         optJson ((Json.obj entries).get? "id"))) := by
  constructor
  · intro client lastId ln
    cases ln with
    | parseFail msg => rfl
    | parsed j =>
        simp only [processLine]
        split
        · rfl
        · split
          · rfl
          · rfl
  · intro client lastId entries m hj hm hn
    have hm3 : (m = "initialized" ∨ m = "notifications/tools/list_changed") ∨
        m = "notifications/resources/list_changed" := by
      simpa [isNotificationMethod] using hn
    rcases hm3 with (rfl | rfl) | rfl <;>
      · simp only [processLine, hj, hm]
        rfl

/-- Witness for C5 amended: a concrete `initialized` notification carrying
an id gets exactly that one null-result response. -/
theorem stdio_one_response_per_envelope_witness :
    processLine trivialClient .null
      (.parsed (.obj [("jsonrpc", .str "2.0"), ("method", .str "initialized"),
                      ("id", .num 5)])) =
      ([⟨.num 5, .result .null⟩], .num 5) :=
  stdio_one_response_per_envelope.2 trivialClient .null
    [("jsonrpc", .str "2.0"), ("method", .str "initialized"), ("id", .num 5)]
    "initialized" rfl rfl rfl

/-- C6 counterexample.  A backend response object (attribute shape) whose
`name`, `identifier` or `subject` are missing is mapped *successfully* with
substituted defaults — `"Unknown Project"`, `""` and `""` — instead of
failing with a protocol error. -/
theorem missing_required_fields_yield_defaults :
    extract_project_data (.attrObj ⟨some 7, none, none, none, none, none⟩) =
      .ok ⟨7, "Unknown Project", "", some (.obj []), some "", some ""⟩ ∧
    extract_work_package_elem
        (.attrObj ⟨some 3, none, none, none, none, none, none, none, none⟩) =
      .ok (some ⟨some 3, "", some (.obj []), none, none, none, none, none, none⟩) :=
  ⟨rfl, rfl⟩

/-- C6 amended.  Only the dict-shaped path fails closed: there a missing
required field (`Project.name`, `Project.identifier`, `WorkPackage.subject`)
raises a pydantic `ValidationError`.  On the attribute-shaped path the
mapping substitutes default business values instead: `"Unknown Project"`
for a missing name, `""` for a missing identifier, `""` for a missing
subject. -/
theorem required_field_handling_by_shape :
    ∀ (r : RawProject) (w : RawWorkPackage),
      (r.name = none →
        ∃ p, extract_project_data (.attrObj r) = .ok p ∧ p.name = "Unknown Project") ∧
      (r.identifier = none →
        ∃ p, extract_project_data (.attrObj r) = .ok p ∧ p.identifier = "") ∧
      (r.name = none ∨ r.identifier = none →
        extract_project_data (.dictObj r) = .error .validationError) ∧
      (w.subject = none →
        ∃ q, extract_work_package_elem (.attrObj w) = .ok (some q) ∧ q.subject = "") ∧
      (w.subject = none →
        extract_work_package_elem (.dictObj w) = .error .validationError) := by
  intro r w
  refine ⟨?_, ?_, ?_, ?_, ?_⟩
  · intro hn
    exact ⟨_, rfl, by simp [hn]⟩
  · intro hi
    exact ⟨_, rfl, by simp [hi]⟩
  · intro hcase
    rcases hcase with hn | hi
    · cases r.id <;> cases r.identifier <;> simp [extract_project_data, hn]
    · cases r.id <;> cases r.name <;> simp [extract_project_data, hi]
  · intro hs
    exact ⟨_, rfl, by simp [hs]⟩
  · intro hs
    simp [extract_work_package_elem, hs]

/-- Witness for C6 amended: for a record with `name` and `identifier`
absent, the dict path raises the validation error while the attribute path
substitutes `"Unknown Project"`. -/
theorem required_field_handling_by_shape_witness :
    extract_project_data (.dictObj ⟨some 7, none, none, none, none, none⟩) =
      .error .validationError ∧
    ∃ p, extract_project_data (.attrObj ⟨some 7, none, none, none, none, none⟩) =
      .ok p ∧ p.name = "Unknown Project" :=
  ⟨(required_field_handling_by_shape ⟨some 7, none, none, none, none, none⟩
      ⟨some 3, none, none, none, none, none, none, none, none⟩).2.2.1 (Or.inl rfl),
   (required_field_handling_by_shape ⟨some 7, none, none, none, none, none⟩
      ⟨some 3, none, none, none, none, none, none, none, none⟩).1 rfl⟩

/-- C7 counterexample.  A `get_project` that succeeds on a backend object
with no `id` attribute returns a mapped `Project` whose `id` is `0` — not a
strictly positive integer. -/
theorem mapped_project_id_zero :
    (get_project_run 5 (fun _ =>
        .success (.attrObj ⟨none, some "Demo", some "demo", none, none, none⟩))).1 =
      .ok ⟨0, "Demo", "demo", some (.obj []), some "", some ""⟩ ∧
    ¬ (0 : Int) <
      (ProjectInfo.mk 0 "Demo" "demo" (some (.obj [])) (some "") (some "")).id :=
  ⟨rfl, by decide⟩

/-- C7 amended.  A successfully mapped `Project`'s `id` is exactly what the
backend supplied: on the dict path the backend's `id` verbatim, on the
attribute path `getattr(result, 'id', 0)` — the backend's `id` when present
and `0` when absent.  No strict positivity is established or checked. -/
theorem mapped_project_id_provenance :
    ∀ (pid : Int) (attempts : Nat → RawAttempt (RawShape RawProject))
      (p : ProjectInfo) (n : Nat),
      get_project_run pid attempts = (.ok p, n) →
      ∃ m r, attempts m = .success r ∧ extract_project_data r = .ok p ∧
        (match r with
         | .attrObj raw => p.id = raw.id.getD 0
         | .dictObj raw => raw.id = some p.id
         | .other => False) := by
  intro pid attempts p n h
  obtain ⟨m, hm⟩ := backoffRun_ok (fun k => get_project_body pid (attempts k)) 3 0 p n h
  cases ha : attempts m with
  | success r =>
      rw [ha] at hm
      unfold get_project_body at hm
      dsimp only at hm
      cases he : extract_project_data r with
      | error e => rw [he] at hm; dsimp only at hm; cases hm
      | ok q =>
          rw [he] at hm
          dsimp only at hm
          injection hm with hqp
          subst hqp
          refine ⟨m, r, ha, he, ?_⟩
          cases r with
          | attrObj raw =>
              dsimp only
              unfold extract_project_data at he
              dsimp only at he
              injection he with h3
              rw [← h3]
          | dictObj raw =>
              dsimp only
              unfold extract_project_data at he
              dsimp only at he
              cases hid : raw.id with
              | none => rw [hid] at he; dsimp only at he; cases he
              | some i =>
                  rw [hid] at he
                  cases hn2 : raw.name with
                  | none => rw [hn2] at he; dsimp only at he; cases he
                  | some nm =>
                      rw [hn2] at he
                      cases hident : raw.identifier with
                      | none => rw [hident] at he; dsimp only at he; cases he
                      | some ident =>
                          rw [hident] at he
                          dsimp only at he
                          injection he with h3
                          rw [← h3]
          | other =>
              unfold extract_project_data at he
              dsimp only at he
              cases he
  | apiExc s msg =>
      rw [ha] at hm
      unfold get_project_body at hm
      dsimp only at hm
      split at hm
      · cases hm
      · split at hm
        · cases hm
        · cases hm
  | requestError msg =>
      rw [ha] at hm
      unfold get_project_body at hm
      dsimp only at hm
      cases hm
  | connError msg =>
      rw [ha] at hm
      unfold get_project_body at hm
      dsimp only at hm
      cases hm

/-- Witness for C7 amended: applying the provenance theorem at a concrete
successful run whose backend object lacks `id`. -/
theorem mapped_project_id_provenance_witness :
    ∃ m r, (fun _ : Nat =>
        RawAttempt.success (RawShape.attrObj
          (⟨none, some "Demo", some "demo", none, none, none⟩ : RawProject))) m =
        .success r ∧
      extract_project_data r =
        .ok ⟨0, "Demo", "demo", some (.obj []), some "", some ""⟩ ∧
      (match r with
       | .attrObj raw =>
           (ProjectInfo.mk 0 "Demo" "demo" (some (.obj [])) (some "") (some "")).id =
             raw.id.getD 0
       | .dictObj raw =>
           raw.id = some (ProjectInfo.mk 0 "Demo" "demo"
             (some (.obj [])) (some "") (some "")).id
       | .other => False) :=
  mapped_project_id_provenance 5
    (fun _ => .success (.attrObj ⟨none, some "Demo", some "demo", none, none, none⟩))
    ⟨0, "Demo", "demo", some (.obj []), some "", some ""⟩ 1 rfl

/-- C10.  A successful weekly report's `week` is the supplied week verbatim
when a non-empty one was given, and the literal `"current"` when it was
omitted or empty (Python falsy); its summary is derived from the
work-package count. -/
theorem weekly_report_week_and_summary :
    ∀ (pid : Int) (projAtt : Nat → RawAttempt (RawShape RawProject))
      (wpAtt : Nat → RawAttempt WPContainer) (r : WeeklyReportData),
      (∀ s, s ≠ "" → get_weekly_report_run pid projAtt wpAtt (some s) = .ok r →
        r.week = s) ∧
      (get_weekly_report_run pid projAtt wpAtt none = .ok r → r.week = "current") ∧
      (get_weekly_report_run pid projAtt wpAtt (some "") = .ok r → r.week = "current") ∧
      (∀ w, get_weekly_report_run pid projAtt wpAtt w = .ok r →
        r.summary = some ("Found " ++ toString r.work_packages.length ++
          " work packages")) := by
  intro pid projAtt wpAtt r
  refine ⟨?_, ?_, ?_, ?_⟩
  · intro s hs h
    rw [(weekly_ok_fields pid projAtt wpAtt (some s) r h).1]
    simp [pyOrCurrent, hs]
  · intro h
    rw [(weekly_ok_fields pid projAtt wpAtt none r h).1]
    rfl
  · intro h
    rw [(weekly_ok_fields pid projAtt wpAtt (some "") r h).1]
    rfl
  · intro w h
    exact (weekly_ok_fields pid projAtt wpAtt w r h).2

/-- Witness for C10: a concrete successful run with `week = "2025-W41"`
returns that week verbatim and the count-derived summary. -/
theorem weekly_report_week_and_summary_witness :
    (WeeklyReportData.mk sampleProject [] "2025-W41" (some "Found 0 work packages")).week =
      "2025-W41" ∧
    (WeeklyReportData.mk sampleProject [] "2025-W41" (some "Found 0 work packages")).summary =
      some ("Found " ++ toString (WeeklyReportData.mk sampleProject []
        "2025-W41" (some "Found 0 work packages")).work_packages.length ++
        " work packages") :=
  ⟨(weekly_report_week_and_summary 42
      (fun _ => .success (.dictObj ⟨some 42, some "Demo", some "demo", none, none, none⟩))
      (fun _ => .success (.rawList []))
      (WeeklyReportData.mk sampleProject [] "2025-W41" (some "Found 0 work packages"))).1
      "2025-W41" (by decide) rfl,
   (weekly_report_week_and_summary 42
      (fun _ => .success (.dictObj ⟨some 42, some "Demo", some "demo", none, none, none⟩))
      (fun _ => .success (.rawList []))
      (WeeklyReportData.mk sampleProject [] "2025-W41" (some "Found 0 work packages"))).2.2.2
      (some "2025-W41") rfl⟩

end MCPOpenProject
